import Mathlib

/-!
Shallow embedding of the plan/step coordination backend
(src/src/backend/app_kernel.py) and its surface endpoints.

External collaborators (identity resolution, the content safety gate,
the database, the agent factory and the agent handlers) appear as
explicit parameters/oracles; effects on them are recorded in an
explicit trace so that ordering and absence-of-effect properties can
be stated.  Store contents are modelled as lists; endpoints are pure
functions from the inbound request plus the oracles to a result,
the (possibly mutated) store, and the effect trace.
-/

namespace AppKernel

/-- Status of a Step (data model section 3 of the design; the enum lives in
common.models.messages_kernel, outside src/, so the constructor set is the
one the design names). -/
inductive StepStatus where
  | planned
  | awaiting_approval
  | approved
  | rejected
  | completed
  | failed
deriving DecidableEq, Repr

/-- Status of a Plan. -/
inductive PlanStatus where
  | created
  | in_progress
  | awaiting_human
  | completed
  | failed
deriving DecidableEq, Repr

/-- Calendar date carried by a message timestamp; enough structure for the
locale-dependent date formatting the listing endpoint performs. -/
structure Date where
  year : Nat
  month : Nat
  day : Nat
deriving DecidableEq, Repr

/-- One unit of work within a Plan. -/
structure Step where
  id : String
  plan_id : String
  action : String
  agent : String
  status : StepStatus
  agent_reply : Option String := none
  human_feedback : Option String := none
  updated_action : Option String := none
deriving DecidableEq, Repr

/-- One task instance. -/
structure Plan where
  id : String
  session_id : String
  team_id : String
  user_id : String
  initial_goal : String
  overall_status : PlanStatus
deriving DecidableEq, Repr

/-- Immutable log entry of an agent or human contribution. -/
structure AgentMessage where
  id : String
  session_id : String
  plan_id : String
  step_id : Option String := none
  content : String
  source : String
  timestamp : Date
deriving DecidableEq, Repr

/-- A team: the grouping of Plans under a user current working context. -/
structure Team where
  id : String
deriving DecidableEq, Repr

/-- Transient human feedback request (submit feedback / approve step(s)). -/
structure HumanFeedback where
  step_id : Option String := none
  plan_id : String
  session_id : String
  approved : Bool
  human_feedback : Option String := none
  updated_action : Option String := none
  user_id : Option String := none
deriving DecidableEq, Repr

/-- Transient human clarification request. -/
structure HumanClarification where
  plan_id : String
  session_id : String
  human_clarification : String
  step_id : Option String := none
  user_id : Option String := none
deriving DecidableEq, Repr

/-- Request body of the browser-language endpoint. -/
structure UserLanguage where
  language : String
deriving DecidableEq, Repr

/-- State of the memory store reachable from the endpoints; the database
itself is external, so its contents are modelled as plain lists with an
association list for the per-user current team. -/
structure MemoryStore where
  plans : List Plan
  steps : List Step
  agent_messages : List AgentMessage
  current_team_of : List (String × Team)
deriving DecidableEq, Repr

/-- Modelled from the spec: store operation getPlanById (the database
implementation is not under src/): look up a Plan by its id. -/
def MemoryStore.get_plan_by_plan_id (s : MemoryStore) (pid : String) : Option Plan :=
  s.plans.find? (fun p => p.id == pid)

/-- Modelled from the spec: store operation getStepsByPlan: the Steps whose
plan_id back-reference names the given plan. -/
def MemoryStore.get_steps_by_plan (s : MemoryStore) (pid : String) : List Step :=
  s.steps.filter (fun st => st.plan_id == pid)

/-- Modelled from the spec: the store method get_steps_for_plan used by the
steps listing endpoint; same contract as getStepsByPlan. -/
def MemoryStore.get_steps_for_plan (s : MemoryStore) (pid : String) : List Step :=
  s.steps.filter (fun st => st.plan_id == pid)

/-- Modelled from the spec: getMessagesBySession, reached through
get_data_by_type_and_session_id with type agent_message: the AgentMessages
of the given session. -/
def MemoryStore.get_data_by_type_and_session_id (s : MemoryStore) (sid : String) :
    List AgentMessage :=
  s.agent_messages.filter (fun m => m.session_id == sid)

/-- Modelled from the spec: get_data_by_type with type agent_message; the
method receives no session argument, so it yields every stored
AgentMessage. -/
def MemoryStore.get_data_by_type (s : MemoryStore) : List AgentMessage :=
  s.agent_messages

/-- Modelled from the spec: getCurrentTeam(user_id): the current team of the
given user, when one is recorded. -/
def MemoryStore.get_current_team (s : MemoryStore) (uid : String) : Option Team :=
  (s.current_team_of.find? (fun p => p.1 == uid)).map (fun p => p.2)

/-- Modelled from the spec: getPlansByTeam(team_id): all Plans of a team. -/
def MemoryStore.get_all_plans_by_team_id (s : MemoryStore) (tid : String) : List Plan :=
  s.plans.filter (fun p => p.team_id == tid)

/-- Aggregated record returned by the plan listing: a Plan together with its
Steps and per-status step counts (PlanWithSteps of
common.models.messages_kernel, outside src/; fields per the design). -/
structure PlanWithSteps extends Plan where
  steps : List Step
  planned_count : Nat := 0
  awaiting_approval_count : Nat := 0
  approved_count : Nat := 0
  rejected_count : Nat := 0
  completed_count : Nat := 0
  failed_count : Nat := 0
deriving DecidableEq, Repr

/-- Number of steps of a list carrying the given status. -/
def countStatus (steps : List Step) (st : StepStatus) : Nat :=
  (steps.filter (fun s => s.status == st)).length

/-- Modelled from the spec: PlanWithSteps.update_step_counts (class body not
under src/): recompute each per-status count fresh from the attached
Steps, never trusting stored counts. -/
def PlanWithSteps.update_step_counts (p : PlanWithSteps) : PlanWithSteps :=
  { p with
    planned_count := countStatus p.steps .planned
    awaiting_approval_count := countStatus p.steps .awaiting_approval
    approved_count := countStatus p.steps .approved
    rejected_count := countStatus p.steps .rejected
    completed_count := countStatus p.steps .completed
    failed_count := countStatus p.steps .failed }

/-- Sum of the six per-status counts of an aggregated record. -/
def PlanWithSteps.count_sum (p : PlanWithSteps) : Nat :=
  p.planned_count + p.awaiting_approval_count + p.approved_count
    + p.rejected_count + p.completed_count + p.failed_count

/-- PlanWithSteps(**plan.model_dump(), steps=steps): the aggregate before
its counts are recomputed. -/
def mkPlanWithSteps (plan : Plan) (steps : List Step) : PlanWithSteps :=
  { plan with steps := steps }

/-- Process-global configuration object (common.config.app_config, outside
src/); the part the endpoints touch is the single process-wide browser
language cell. -/
structure AppConfig where
  user_local_browser_language : String
deriving DecidableEq, Repr

/-- Modelled from the spec: config.set_user_local_browser_language
overwrites the single process-wide language value, with no per-user key. -/
def AppConfig.set_user_local_browser_language (c : AppConfig) (lang : String) : AppConfig :=
  { c with user_local_browser_language := lang }

/-- Modelled from the spec: config.get_user_local_browser_language reads the
process-wide language value. -/
def AppConfig.get_user_local_browser_language (c : AppConfig) : String :=
  c.user_local_browser_language

/-- Modelled from the spec: locale-dependent date rendering used by
format_dates_in_messages (common.utils.utils_date, outside src/): the
en-US locale renders month before day, other locales day before month. -/
def formatDate (lang : String) (d : Date) : String :=
  if lang == "en-US" then
    toString d.month ++ "/" ++ toString d.day ++ "/" ++ toString d.year
  else
    toString d.day ++ "/" ++ toString d.month ++ "/" ++ toString d.year

/-- Modelled from the spec: format_dates_in_messages formats the dates of
the given messages according to the given browser-language locale, pairing
each message with its rendered timestamp. -/
def format_dates_in_messages (msgs : List AgentMessage) (lang : String) :
    List (AgentMessage × String) :=
  msgs.map (fun m => (m, formatDate lang m.timestamp))

/-- Structured detail of a content-safety rejection (the dict raised by the
clarification endpoint on RAI failure). -/
structure RaiDetail where
  error_type : String
  message : String
  description : String
  suggestions : List String
  user_action : String
deriving DecidableEq, Repr

/-- The concrete rejection detail raised by human_clarification_endpoint
when rai_success denies the text. -/
def raiClarificationDetail : RaiDetail :=
  { error_type := "RAI_VALIDATION_FAILED"
    message := "Clarification Safety Check Failed"
    description := "Your clarification contains content that doesn\x27t meet our safety guidelines. Please provide a more appropriate clarification."
    suggestions :=
      [ "Use clear and professional language"
      , "Avoid potentially harmful or inappropriate content"
      , "Focus on providing constructive feedback or clarification"
      , "Ensure your message complies with content policies" ]
    user_action := "Please revise your clarification and try again" }

/-- Errors an endpoint can surface. -/
inductive ApiError where
  | unauthenticated
  | contentRejected (detail : RaiDetail)
  | agentNotFound
  | planNotFound
  | downstream (msg : String)
deriving DecidableEq, Repr

/-- Observable effects on the external collaborators, in program order. -/
inductive Effect where
  | identityResolve
  | gateCheck (text : String)
  | dbAcquire
  | storeRead
  | clientAcquire
  | clientRelease
  | agentLookup
  | handlerCall
deriving DecidableEq, Repr

/-- Effects that touch the store (database acquisition or a read). -/
def Effect.touchesStore : Effect → Bool
  | .dbAcquire => true
  | .storeRead => true
  | _ => false

/-- Python truthiness of an optional string: both a missing value and an
empty string are falsy, as in the source checks on user_id, plan_id and
step_id. -/
def pyTruthy : Option String → Bool
  | none => false
  | some u => !(u == "")

/-- Python rendering of a boolean, as interpolated into status strings. -/
def pyBool (b : Bool) : String :=
  if b then "True" else "False"

deriving instance DecidableEq for Except

/-- Outcome of one endpoint call: the result, the store afterwards, and the
trace of effects on the external collaborators. -/
structure Outcome (α : Type) where
  result : Except ApiError α
  store : MemoryStore
  trace : List Effect
deriving DecidableEq, Repr

/-- Response body of the feedback endpoint. -/
structure FeedbackResponse where
  status : String
  session_id : String
  step_id : Option String
deriving DecidableEq, Repr

/-- Response body of the clarification endpoint. -/
structure ClarificationResponse where
  status : String
  session_id : String
deriving DecidableEq, Repr

/-- Response body of the approval endpoint. -/
structure ApproveResponse where
  status : String
deriving DecidableEq, Repr

/-- Response of the plan listing: either the single aggregated record with
its formatted messages, or the list of aggregated team plans. -/
inductive PlansResponse where
  | detail (plan : PlanWithSteps) (messages : List (AgentMessage × String))
  | plans (items : List PlanWithSteps)
deriving DecidableEq, Repr

/-- An external agent handler (the human agent or group chat manager, both
outside src/): it may mutate the store and may raise, modelled as the new
store paired with an optional raised error message. -/
def AgentHandler : Type :=
  MemoryStore → MemoryStore × Option String

/-- POST /api/human_feedback — human_feedback_endpoint.  `auth` is the
user_principal_id from get_authenticated_user_details; `clientOk` is
whether config.get_ai_project_client succeeds (its failure is caught and
logged, leaving the client unset); `agentFound` is whether
AgentFactory.create_agent yields a human agent; `handler` is that agent
handle_human_feedback. -/
def human_feedback_endpoint (auth : Option String) (store : MemoryStore)
    (clientOk : Bool) (agentFound : Bool) (handler : AgentHandler)
    (human_feedback : HumanFeedback) : Outcome FeedbackResponse :=
  if !(pyTruthy auth) then
    ⟨.error .unauthenticated, store, [.identityResolve]⟩
  else
    let t := [Effect.identityResolve, Effect.dbAcquire]
      ++ (if clientOk then [Effect.clientAcquire] else [])
      ++ [Effect.agentLookup]
    if !agentFound then
      ⟨.error .agentNotFound, store, t⟩
    else
      match handler store with
      | (store2, some e) =>
          ⟨.error (.downstream e), store2, t ++ [.handlerCall]⟩
      | (store2, none) =>
          ⟨.ok { status := "Feedback received"
                 session_id := human_feedback.session_id
                 step_id := human_feedback.step_id }
          , store2
          , t ++ [Effect.handlerCall]
              ++ (if clientOk then [Effect.clientRelease] else [])⟩

/-- POST /api/human_clarification_on_plan — human_clarification_endpoint.
`rai` is the rai_success gate (text, strict flag); the endpoint calls it
on the clarification text with strict = false before anything else. -/
def human_clarification_endpoint (rai : String → Bool → Bool)
    (auth : Option String) (store : MemoryStore)
    (clientOk : Bool) (agentFound : Bool) (handler : AgentHandler)
    (human_clarification : HumanClarification) : Outcome ClarificationResponse :=
  if !(rai human_clarification.human_clarification false) then
    ⟨.error (.contentRejected raiClarificationDetail), store,
      [.gateCheck human_clarification.human_clarification]⟩
  else if !(pyTruthy auth) then
    ⟨.error .unauthenticated, store,
      [.gateCheck human_clarification.human_clarification, .identityResolve]⟩
  else
    let t := [Effect.gateCheck human_clarification.human_clarification,
        Effect.identityResolve, Effect.dbAcquire]
      ++ (if clientOk then [Effect.clientAcquire] else [])
      ++ [Effect.agentLookup]
    if !agentFound then
      ⟨.error .agentNotFound, store, t⟩
    else
      match handler store with
      | (store2, some e) =>
          ⟨.error (.downstream e), store2, t ++ [.handlerCall]⟩
      | (store2, none) =>
          ⟨.ok { status := "Clarification received"
                 session_id := human_clarification.session_id }
          , store2
          , t ++ [Effect.handlerCall]
              ++ (if clientOk then [Effect.clientRelease] else [])⟩

/-- POST /api/approve_step_or_steps — approve_step_endpoint.  `handler` is
the group chat manager handle_human_feedback obtained through
AgentFactory.create_all_agents.  The status branch is the source
truthiness test on step_id, under which a missing or empty step_id
yields the bulk status string. -/
def approve_step_endpoint (auth : Option String) (store : MemoryStore)
    (clientOk : Bool) (handler : AgentHandler)
    (human_feedback : HumanFeedback) : Outcome ApproveResponse :=
  if !(pyTruthy auth) then
    ⟨.error .unauthenticated, store, [.identityResolve]⟩
  else
    let t := [Effect.identityResolve, Effect.dbAcquire]
      ++ (if clientOk then [Effect.clientAcquire] else [])
      ++ [Effect.agentLookup]
    match handler store with
    | (store2, some e) =>
        ⟨.error (.downstream e), store2, t ++ [.handlerCall]⟩
    | (store2, none) =>
        let t2 := t ++ [Effect.handlerCall]
          ++ (if clientOk then [Effect.clientRelease] else [])
        if pyTruthy human_feedback.step_id then
          ⟨.ok { status := "Step " ++ human_feedback.step_id.getD ""
                   ++ " - Approval:" ++ pyBool human_feedback.approved ++ "." },
            store2, t2⟩
        else
          ⟨.ok { status := "All steps approved" }, store2, t2⟩

/-- The aggregate the team branch of get_plans computes (lines building
list_of_plans_with_steps): one record per team Plan, with steps fetched
per plan and counts recomputed. -/
def computed_plans_with_steps (store : MemoryStore) (team_id : String) :
    List PlanWithSteps :=
  let all_plans := store.get_all_plans_by_team_id team_id
  let steps_for_all_plans := all_plans.map (fun p => store.get_steps_by_plan p.id)
  (all_plans.zip steps_for_all_plans).map
    (fun pr => (mkPlanWithSteps pr.1 pr.2).update_step_counts)

/-- GET /api/plans — get_plans.  Reads the process-global browser language
from `cfg` when formatting the single-plan messages.  The branch choice
is the source truthiness test on plan_id, under which a missing or
empty plan_id selects the team branch; that branch builds
list_of_plans_with_steps and then returns the empty list, exactly as
the source does. -/
def get_plans (auth : Option String) (store : MemoryStore) (cfg : AppConfig)
    (plan_id : Option String) : Outcome PlansResponse :=
  if !(pyTruthy auth) then
    ⟨.error .unauthenticated, store, [.identityResolve]⟩
  else
    let user_id := auth.getD ""
    let t := [Effect.identityResolve, Effect.dbAcquire]
    if pyTruthy plan_id then
      match store.get_plan_by_plan_id (plan_id.getD "") with
      | none => ⟨.error .planNotFound, store, t ++ [.storeRead]⟩
      | some plan =>
        let steps := store.get_steps_by_plan plan.id
        let messages := store.get_data_by_type_and_session_id plan.session_id
        let plan_with_steps := (mkPlanWithSteps plan steps).update_step_counts
        let formatted_messages :=
          format_dates_in_messages messages cfg.get_user_local_browser_language
        ⟨.ok (.detail plan_with_steps formatted_messages), store,
          t ++ [.storeRead, .storeRead, .storeRead]⟩
    else
      match store.get_current_team user_id with
      | none => ⟨.ok (.plans []), store, t ++ [.storeRead]⟩
      | some current_team =>
        let _list_of_plans_with_steps :=
          computed_plans_with_steps store current_team.id
        ⟨.ok (.plans []), store, t ++ [.storeRead, .storeRead, .storeRead]⟩

/-- GET /api/steps/plan_id — get_steps_by_plan endpoint. -/
def get_steps_by_plan (auth : Option String) (store : MemoryStore)
    (plan_id : String) : Outcome (List Step) :=
  if !(pyTruthy auth) then
    ⟨.error .unauthenticated, store, [.identityResolve]⟩
  else
    ⟨.ok (store.get_steps_for_plan plan_id), store,
      [.identityResolve, .dbAcquire, .storeRead]⟩

/-- GET /api/agent_messages/session_id — get_agent_messages.  The body
fetches every stored agent_message through get_data_by_type; the
session_id path parameter is never consulted. -/
def get_agent_messages (auth : Option String) (store : MemoryStore)
    (_session_id : String) : Outcome (List AgentMessage) :=
  if !(pyTruthy auth) then
    ⟨.error .unauthenticated, store, [.identityResolve]⟩
  else
    ⟨.ok store.get_data_by_type, store,
      [.identityResolve, .dbAcquire, .storeRead]⟩

/-- POST /api/user_browser_language — user_browser_language_endpoint: writes
the process-global language cell (no identity check, no per-user key) and
acknowledges. -/
def user_browser_language_endpoint (user_language : UserLanguage)
    (cfg : AppConfig) : AppConfig × String :=
  (cfg.set_user_local_browser_language user_language.language,
    "Language received successfully")

/-! Concrete fixtures used by closed theorems and witnesses. -/

/-- A sample plan of team t1 in session s1. -/
def samplePlan : Plan :=
  { id := "p1", session_id := "s1", team_id := "t1", user_id := "u1"
    initial_goal := "build a report", overall_status := .in_progress }

/-- A planned step of the sample plan. -/
def sampleStep1 : Step :=
  { id := "st1", plan_id := "p1", action := "gather data", agent := "Hr"
    status := .planned }

/-- A completed step of the sample plan. -/
def sampleStep2 : Step :=
  { id := "st2", plan_id := "p1", action := "summarize", agent := "Hr"
    status := .completed }

/-- A message of session s1 dated March 4 (month and day differ, so locale
order is observable). -/
def sampleMsg1 : AgentMessage :=
  { id := "m1", session_id := "s1", plan_id := "p1", content := "progress"
    source := "Hr_Agent", timestamp := ⟨2025, 3, 4⟩ }

/-- A message of a different session s2. -/
def sampleMsg2 : AgentMessage :=
  { id := "m2", session_id := "s2", plan_id := "p2", content := "other"
    source := "Hr_Agent", timestamp := ⟨2025, 1, 2⟩ }

/-- A store holding the sample plan, its two steps, messages of two
sessions, and a current team for user u1. -/
def sampleStore : MemoryStore :=
  { plans := [samplePlan]
    steps := [sampleStep1, sampleStep2]
    agent_messages := [sampleMsg1, sampleMsg2]
    current_team_of := [("u1", ⟨"t1"⟩)] }

/-- An agent handler that succeeds without touching the store. -/
def idHandler : AgentHandler := fun s => (s, none)

/-- An agent handler that raises. -/
def raiseHandler : AgentHandler := fun s => (s, some "boom")

/-- A gate that denies every text. -/
def denyRai : String → Bool → Bool := fun _ _ => false

/-- A sample clarification request. -/
def sampleClar : HumanClarification :=
  { plan_id := "p1", session_id := "s1", human_clarification := "focus on Q2" }

/-- A sample targeted feedback request. -/
def sampleFeedback : HumanFeedback :=
  { step_id := some "st1", plan_id := "p1", session_id := "s1", approved := true }

/-! Helper lemmas. -/

/-- Each step carries exactly one status, so the six per-status counts of a
step list sum to its length. -/
theorem countStatus_sum (steps : List Step) :
    countStatus steps .planned + countStatus steps .awaiting_approval
      + countStatus steps .approved + countStatus steps .rejected
      + countStatus steps .completed + countStatus steps .failed
      = steps.length := by
  induction steps with
  | nil => rfl
  | cons s rest ih =>
    cases h : s.status <;>
      simp only [countStatus, List.filter_cons, h, List.length_cons] at ih ⊢ <;>
      simp only [beq_self_eq_true, beq_iff_eq, reduceCtorEq, if_true, if_false,
        ite_true, ite_false, List.length_cons] <;>
      omega

/-- Recomputing counts makes them sum to the number of attached steps. -/
theorem count_sum_update (p : PlanWithSteps) :
    (p.update_step_counts).count_sum = p.steps.length := by
  simp only [PlanWithSteps.update_step_counts, PlanWithSteps.count_sum]
  exact countStatus_sum p.steps

/-- Claim C1: the list-plans operation without a plan_id is claimed to
return one aggregated record per Plan of the resolved team.  The code
computes exactly those aggregates but then returns the empty list
unconditionally: for user u1, whose current team t1 owns one Plan, the
endpoint returns an empty sequence even though the aggregate it computed
holds one record carrying that Plan and its fetched Steps. -/
theorem get_plans_team_listing_returns_empty :
    (get_plans (some "u1") sampleStore ⟨"en-US"⟩ none).result = .ok (.plans [])
    ∧ computed_plans_with_steps sampleStore "t1"
        = [(mkPlanWithSteps samplePlan [sampleStep1, sampleStep2]).update_step_counts]
    ∧ sampleStore.get_current_team "u1" = some ⟨"t1"⟩
    ∧ sampleStore.get_all_plans_by_team_id "t1" = [samplePlan] := by
  refine ⟨rfl, ?_, rfl, ?_⟩ <;> decide

/-- Claim C2: the list-agent-messages operation is claimed to return
exactly the AgentMessages of the given session.  The code never consults
its session_id parameter and returns every stored agent message: queried
for session s1, it returns the message of session s2 as well, while the
session-filtered store operation would return only the s1 message. -/
theorem get_agent_messages_ignores_session :
    (get_agent_messages (some "u1") sampleStore "s1").result
        = .ok [sampleMsg1, sampleMsg2]
    ∧ sampleMsg2.session_id ≠ "s1"
    ∧ sampleStore.get_data_by_type_and_session_id "s1" = [sampleMsg1] := by
  refine ⟨rfl, ?_, ?_⟩ <;> decide

/-- Claim C10: the single-plan listing is not a function of its request
alone: a browser-language call by a different user mutates the
process-global language cell that the listing reads when formatting
message dates, so two calls with the identical request, identical store
and identical user return differently formatted messages around it. -/
theorem get_plans_reads_global_language :
    (user_browser_language_endpoint ⟨"fr-FR"⟩ ⟨"en-US"⟩).1
        = AppConfig.mk "fr-FR"
    ∧ get_plans (some "u1") sampleStore ⟨"en-US"⟩ (some "p1")
        ≠ get_plans (some "u1") sampleStore
            ((user_browser_language_endpoint ⟨"fr-FR"⟩ ⟨"en-US"⟩).1) (some "p1") := by
  refine ⟨rfl, ?_⟩
  decide

/-- Claim C3: whenever the Content Safety Gate rejects the clarification
text, the clarification endpoint fails with ContentRejected carrying at
least one remediation suggestion, the whole outcome is the rejection with
an untouched store, and the trace is the single gate check — in
particular the Agent Directory is never consulted and the Plan (indeed
the whole store) is unmodified. -/
theorem clarification_gate_rejection (rai : String → Bool → Bool)
    (auth : Option String) (store : MemoryStore) (clientOk agentFound : Bool)
    (handler : AgentHandler) (hc : HumanClarification)
    (h : rai hc.human_clarification false = false) :
    human_clarification_endpoint rai auth store clientOk agentFound handler hc
        = ⟨.error (.contentRejected raiClarificationDetail), store,
            [.gateCheck hc.human_clarification]⟩
    ∧ 1 ≤ raiClarificationDetail.suggestions.length
    ∧ Effect.agentLookup ∉ [Effect.gateCheck hc.human_clarification] := by
  refine ⟨?_, by decide, by simp⟩
  simp [human_clarification_endpoint, h]

/-- Witness for C3 at a concrete rejecting gate and request. -/
theorem clarification_gate_rejection_witness :
    denyRai sampleClar.human_clarification false = false
    ∧ (human_clarification_endpoint denyRai (some "u1") sampleStore true true
          idHandler sampleClar
        = ⟨.error (.contentRejected raiClarificationDetail), sampleStore,
            [.gateCheck sampleClar.human_clarification]⟩
      ∧ 1 ≤ raiClarificationDetail.suggestions.length
      ∧ Effect.agentLookup ∉ [Effect.gateCheck sampleClar.human_clarification]) :=
  ⟨rfl, clarification_gate_rejection denyRai (some "u1") sampleStore true true
    idHandler sampleClar rfl⟩

/-- Claim C4 as stated is false: a clarification request with no
resolvable user id whose text the gate rejects fails with
ContentRejected, not Unauthenticated. -/
theorem unauthenticated_everywhere_counterexample :
    (human_clarification_endpoint denyRai none sampleStore true true idHandler
        sampleClar).result
        = .error (.contentRejected raiClarificationDetail)
    ∧ (human_clarification_endpoint denyRai none sampleStore true true idHandler
        sampleClar).result
        ≠ .error .unauthenticated := by
  refine ⟨rfl, ?_⟩
  decide

/-- Claim C4 amended: for every surface operation called with no resolvable
user id, the operation fails before any store effect and leaves the store
untouched; the failure is Unauthenticated for every operation except a
clarification whose text the gate rejects, which fails with
ContentRejected (the gate runs first there).  Each failing outcome's
trace contains no store effect. -/
theorem unauthenticated_before_store (store : MemoryStore) (cfg : AppConfig)
    (clientOk agentFound : Bool) (handler : AgentHandler)
    (rai : String → Bool → Bool) (fb : HumanFeedback) (hc : HumanClarification)
    (plan_id : Option String) (pid sid : String) :
    human_feedback_endpoint none store clientOk agentFound handler fb
        = ⟨.error .unauthenticated, store, [.identityResolve]⟩
    ∧ approve_step_endpoint none store clientOk handler fb
        = ⟨.error .unauthenticated, store, [.identityResolve]⟩
    ∧ get_plans none store cfg plan_id
        = ⟨.error .unauthenticated, store, [.identityResolve]⟩
    ∧ get_steps_by_plan none store pid
        = ⟨.error .unauthenticated, store, [.identityResolve]⟩
    ∧ get_agent_messages none store sid
        = ⟨.error .unauthenticated, store, [.identityResolve]⟩
    ∧ human_clarification_endpoint rai none store clientOk agentFound handler hc
        = (if rai hc.human_clarification false then
            ⟨.error .unauthenticated, store,
              [.gateCheck hc.human_clarification, .identityResolve]⟩
          else
            ⟨.error (.contentRejected raiClarificationDetail), store,
              [.gateCheck hc.human_clarification]⟩)
    ∧ [Effect.identityResolve].all (fun e => !e.touchesStore) = true
    ∧ [Effect.gateCheck hc.human_clarification,
        Effect.identityResolve].all (fun e => !e.touchesStore) = true := by
  refine ⟨rfl, rfl, rfl, rfl, rfl, ?_, by decide, ?_⟩
  · by_cases h : rai hc.human_clarification false <;>
      simp [human_clarification_endpoint, h, pyTruthy]
  · simp [Effect.touchesStore]

/-- Claim C5 as stated is false: for a clarification request lacking a
resolvable user id and carrying text the gate rejects, the gate IS
consulted (it is the first and only effect) and the failure is
ContentRejected, not Unauthenticated. -/
theorem identity_before_gate_counterexample :
    Effect.gateCheck sampleClar.human_clarification
        ∈ (human_clarification_endpoint denyRai none sampleStore true true
            idHandler sampleClar).trace
    ∧ (human_clarification_endpoint denyRai none sampleStore true true idHandler
        sampleClar).result
        ≠ .error .unauthenticated := by
  constructor <;> decide

/-- Claim C5 amended: the Content Safety Gate runs before the Identity
Resolver in the clarification endpoint: the gate check is always the
first trace entry, and a request that both lacks a resolvable user id
and carries gate-rejected text fails with ContentRejected without the
Identity Resolver ever being consulted. -/
theorem gate_runs_before_identity (rai : String → Bool → Bool)
    (store : MemoryStore) (clientOk agentFound : Bool) (handler : AgentHandler)
    (hc : HumanClarification)
    (h : rai hc.human_clarification false = false) :
    (human_clarification_endpoint rai none store clientOk agentFound handler
        hc).result = .error (.contentRejected raiClarificationDetail)
    ∧ Effect.identityResolve
        ∉ (human_clarification_endpoint rai none store clientOk agentFound handler
            hc).trace
    ∧ ∀ (rai2 : String → Bool → Bool) (auth2 : Option String),
        ((human_clarification_endpoint rai2 auth2 store clientOk agentFound
            handler hc).trace).head?
          = some (.gateCheck hc.human_clarification) := by
  refine ⟨?_, ?_, ?_⟩
  · simp [human_clarification_endpoint, h]
  · simp [human_clarification_endpoint, h]
  · intro rai2 auth2
    by_cases h2 : rai2 hc.human_clarification false
    · by_cases h3 : pyTruthy auth2
      · rcases hh : handler store with ⟨s2, e⟩
        by_cases h4 : agentFound <;> cases e <;>
          simp [human_clarification_endpoint, h2, h3, h4, hh]
      · simp [human_clarification_endpoint, h2, h3]
    · simp [human_clarification_endpoint, h2]

/-- Witness for the amended C5 at a concrete rejecting gate and request. -/
theorem gate_runs_before_identity_witness :
    denyRai sampleClar.human_clarification false = false
    ∧ ((human_clarification_endpoint denyRai none sampleStore true true idHandler
          sampleClar).result = .error (.contentRejected raiClarificationDetail)
      ∧ Effect.identityResolve
          ∉ (human_clarification_endpoint denyRai none sampleStore true true
              idHandler sampleClar).trace
      ∧ ∀ (rai2 : String → Bool → Bool) (auth2 : Option String),
          ((human_clarification_endpoint rai2 auth2 sampleStore true true
              idHandler sampleClar).trace).head?
            = some (.gateCheck sampleClar.human_clarification)) :=
  ⟨rfl, gate_runs_before_identity denyRai sampleStore true true idHandler
    sampleClar rfl⟩

/-- A gate that allows every text. -/
def allowRai : String → Bool → Bool := fun _ _ => true

/-- Claim C6: on every successful approval request (user id resolves and
the downstream handler does not raise), the returned status string is
composed of the step id and its approval value when a step_id is
present — presence being the source truthiness test, a non-missing,
non-empty id — and is exactly the string All steps approved when no
step_id is present. -/
theorem approve_step_status (uid : String) (store : MemoryStore)
    (clientOk : Bool) (handler : AgentHandler) (fb : HumanFeedback)
    (huid : uid ≠ "") (hh : (handler store).2 = none) :
    (approve_step_endpoint (some uid) store clientOk handler fb).result
      = .ok { status :=
          if pyTruthy fb.step_id then
            "Step " ++ fb.step_id.getD "" ++ " - Approval:"
              ++ pyBool fb.approved ++ "."
          else "All steps approved" }
    ∧ (∀ sid, fb.step_id = some sid → sid ≠ "" →
        (approve_step_endpoint (some uid) store clientOk handler fb).result
          = .ok { status :=
              "Step " ++ sid ++ " - Approval:" ++ pyBool fb.approved ++ "." })
    ∧ (fb.step_id = none →
        (approve_step_endpoint (some uid) store clientOk handler fb).result
          = .ok { status := "All steps approved" }) := by
  have h1 : (uid == "") = false := beq_eq_false_iff_ne.mpr huid
  have hauth : pyTruthy (some uid) = true := by simp [pyTruthy, h1]
  rcases hst : handler store with ⟨s2, e⟩
  rw [hst] at hh
  subst hh
  refine ⟨?_, ?_, ?_⟩
  · cases htr : pyTruthy fb.step_id <;>
      simp [approve_step_endpoint, hauth, hst, htr]
  · intro sid hsid hne
    have htr : pyTruthy (some sid) = true := by
      simp [pyTruthy, hne]
    simp [approve_step_endpoint, hauth, hst, hsid, htr]
  · intro hsid
    simp [approve_step_endpoint, pyTruthy, h1, hst, hsid]

/-- Witness for C6 at a concrete targeted approval. -/
theorem approve_step_status_witness :
    ("u1" : String) ≠ ""
    ∧ (idHandler sampleStore).2 = none
    ∧ ((approve_step_endpoint (some "u1") sampleStore true idHandler
          sampleFeedback).result
        = .ok { status :=
            if pyTruthy sampleFeedback.step_id then
              "Step " ++ sampleFeedback.step_id.getD "" ++ " - Approval:"
                ++ pyBool sampleFeedback.approved ++ "."
            else "All steps approved" }
      ∧ (∀ sid, sampleFeedback.step_id = some sid → sid ≠ "" →
          (approve_step_endpoint (some "u1") sampleStore true idHandler
              sampleFeedback).result
            = .ok { status := "Step " ++ sid ++ " - Approval:"
                ++ pyBool sampleFeedback.approved ++ "." })
      ∧ (sampleFeedback.step_id = none →
          (approve_step_endpoint (some "u1") sampleStore true idHandler
              sampleFeedback).result
            = .ok { status := "All steps approved" })) :=
  ⟨by decide, rfl,
    approve_step_status "u1" sampleStore true idHandler sampleFeedback
      (by decide) rfl⟩

/-- Claim C7: the authenticated single-plan listing — a plan_id being
given meaning the source truthiness test passes, i.e. the id is
non-empty — fails with PlanNotFound when no Plan carries the given id;
when one does, it returns the aggregated record built from that Plan and
its freshly loaded Steps with recomputed counts, and those counts sum to
the number of loaded Steps. -/
theorem get_plans_single_plan (uid : String) (store : MemoryStore)
    (cfg : AppConfig) (pid : String) (huid : uid ≠ "") (hpid : pid ≠ "") :
    (store.get_plan_by_plan_id pid = none →
      (get_plans (some uid) store cfg (some pid)).result = .error .planNotFound)
    ∧ ∀ plan, store.get_plan_by_plan_id pid = some plan →
        (get_plans (some uid) store cfg (some pid)).result
          = .ok (.detail
              ((mkPlanWithSteps plan
                  (store.get_steps_by_plan plan.id)).update_step_counts)
              (format_dates_in_messages
                (store.get_data_by_type_and_session_id plan.session_id)
                cfg.get_user_local_browser_language))
        ∧ ((mkPlanWithSteps plan
              (store.get_steps_by_plan plan.id)).update_step_counts).count_sum
            = (store.get_steps_by_plan plan.id).length := by
  have h1 : (uid == "") = false := beq_eq_false_iff_ne.mpr huid
  have hauth : pyTruthy (some uid) = true := by simp [pyTruthy, h1]
  have htr : pyTruthy (some pid) = true := by simp [pyTruthy, hpid]
  constructor
  · intro hnone
    simp [get_plans, hauth, htr, hnone]
  · intro plan hsome
    refine ⟨?_, ?_⟩
    · simp [get_plans, hauth, htr, hsome]
    · exact count_sum_update (mkPlanWithSteps plan (store.get_steps_by_plan plan.id))

/-- Witness for C7: the lookup of plan p1 succeeds and the lookup of an
unknown id fails, both through the theorem at concrete inputs. -/
theorem get_plans_single_plan_witness :
    ("u1" : String) ≠ ""
    ∧ sampleStore.get_plan_by_plan_id "p1" = some samplePlan
    ∧ sampleStore.get_plan_by_plan_id "nope" = none
    ∧ (get_plans (some "u1") sampleStore ⟨"en-US"⟩ (some "nope")).result
        = .error .planNotFound
    ∧ (get_plans (some "u1") sampleStore ⟨"en-US"⟩ (some "p1")).result
        = .ok (.detail
            ((mkPlanWithSteps samplePlan
                (sampleStore.get_steps_by_plan samplePlan.id)).update_step_counts)
            (format_dates_in_messages
              (sampleStore.get_data_by_type_and_session_id samplePlan.session_id)
              (AppConfig.get_user_local_browser_language ⟨"en-US"⟩)))
    ∧ ((mkPlanWithSteps samplePlan
          (sampleStore.get_steps_by_plan samplePlan.id)).update_step_counts).count_sum
        = (sampleStore.get_steps_by_plan samplePlan.id).length :=
  ⟨by decide, by decide, by decide,
    (get_plans_single_plan "u1" sampleStore ⟨"en-US"⟩ "nope" (by decide)
      (by decide)).1 (by decide),
    ((get_plans_single_plan "u1" sampleStore ⟨"en-US"⟩ "p1" (by decide)
      (by decide)).2 samplePlan (by decide)).1,
    ((get_plans_single_plan "u1" sampleStore ⟨"en-US"⟩ "p1" (by decide)
      (by decide)).2 samplePlan (by decide)).2⟩

/-- Claim C8: when the Agent Directory cannot materialize the human agent
for the session (create_agent yields nothing), the feedback endpoint
fails with AgentNotFound, the store — hence every Step — is left exactly
as it was, and the downstream handler is never invoked. -/
theorem feedback_agent_not_found (uid : String) (store : MemoryStore)
    (clientOk : Bool) (handler : AgentHandler) (fb : HumanFeedback)
    (huid : uid ≠ "") :
    (human_feedback_endpoint (some uid) store clientOk false handler fb).result
        = .error .agentNotFound
    ∧ (human_feedback_endpoint (some uid) store clientOk false handler fb).store
        = store
    ∧ Effect.handlerCall
        ∉ (human_feedback_endpoint (some uid) store clientOk false handler
            fb).trace := by
  have h1 : (uid == "") = false := beq_eq_false_iff_ne.mpr huid
  refine ⟨?_, ?_, ?_⟩ <;>
    cases clientOk <;> simp [human_feedback_endpoint, pyTruthy, h1]

/-- Witness for C8 at a concrete feedback request. -/
theorem feedback_agent_not_found_witness :
    ("u1" : String) ≠ ""
    ∧ ((human_feedback_endpoint (some "u1") sampleStore true false idHandler
          sampleFeedback).result = .error .agentNotFound
      ∧ (human_feedback_endpoint (some "u1") sampleStore true false idHandler
          sampleFeedback).store = sampleStore
      ∧ Effect.handlerCall
          ∉ (human_feedback_endpoint (some "u1") sampleStore true false idHandler
              sampleFeedback).trace) :=
  ⟨by decide,
    feedback_agent_not_found "u1" sampleStore true idHandler sampleFeedback
      (by decide)⟩

/-- Claim C9 is contradicted by the code: the execution-client handle is
closed only on the success return path.  On the AgentNotFound path and on
a downstream handler error the acquired client is never released, in both
the feedback and the clarification endpoint; the success path does
release it. -/
theorem client_release_skipped_on_error_paths :
    (Effect.clientAcquire
        ∈ (human_feedback_endpoint (some "u1") sampleStore true false idHandler
            sampleFeedback).trace
      ∧ Effect.clientRelease
        ∉ (human_feedback_endpoint (some "u1") sampleStore true false idHandler
            sampleFeedback).trace
      ∧ (human_feedback_endpoint (some "u1") sampleStore true false idHandler
            sampleFeedback).result = .error .agentNotFound)
    ∧ (Effect.clientAcquire
        ∈ (human_feedback_endpoint (some "u1") sampleStore true true raiseHandler
            sampleFeedback).trace
      ∧ Effect.clientRelease
        ∉ (human_feedback_endpoint (some "u1") sampleStore true true raiseHandler
            sampleFeedback).trace
      ∧ (human_feedback_endpoint (some "u1") sampleStore true true raiseHandler
            sampleFeedback).result = .error (.downstream "boom"))
    ∧ (Effect.clientAcquire
        ∈ (human_clarification_endpoint allowRai (some "u1") sampleStore true
            false idHandler sampleClar).trace
      ∧ Effect.clientRelease
        ∉ (human_clarification_endpoint allowRai (some "u1") sampleStore true
            false idHandler sampleClar).trace)
    ∧ Effect.clientRelease
        ∈ (human_feedback_endpoint (some "u1") sampleStore true true idHandler
            sampleFeedback).trace := by
  decide

end AppKernel
